import Mathlib

/-!
Verification development for the QuestDB C++ line-sender client
(`include/questdb/line_sender.hpp`).

The repository source under verification is the C++ wrapper class
`questdb::line_sender` together with its error type.  The wrapper forwards
to the C functions `line_sender_table`, `line_sender_symbol`,
`line_sender_column_*`, `line_sender_at`, `line_sender_at_now`,
`line_sender_flush`, `line_sender_pending_size`, `line_sender_must_close`,
`line_sender_close` and `line_sender_connect`, whose implementation is not
part of the repository; those are modelled from the specification
(record-builder state machine, buffering discipline, wire encoding,
fatal-error model), each such definition carrying a doc comment starting
with `Modelled from the spec:`.  The wrapper itself (null-handle guards,
move semantics, close idempotence, return-value plumbing) is embedded
directly from the header.
-/

/-- The error taxonomy, from `enum class line_sender_error_code` in the
header (lines 40–47). -/
inductive line_sender_error_code where
  | could_not_resolve_addr
  | invalid_api_call
  | socket_error
  | invalid_utf8
  | invalid_identifier
deriving DecidableEq, Repr

/-- The two-state record-builder tag of the spec (§4.1):
`AwaitingTable → AwaitingFieldsOrTimestamp → (back to AwaitingTable)`. -/
inductive builder_state where
  | awaiting_table
  | awaiting_fields
deriving DecidableEq, Repr

/-- Modelled from the spec: the Validator collaborator's
`is_legal_identifier` predicate is external to the repository; the spec
pins down only that the empty name is illegal and a name containing a
space is illegal (§8 invalid-name scenarios). -/
def is_legal_ident (s : String) : Bool :=
  !s.data.isEmpty && !(s.data.contains ' ')

/-- A decimal number `mantissa / 10 ^ scale`, standing in for the 64-bit
float column value.  The spec (§6) requires float columns to encode as a
bare decimal literal; a decimal mantissa/scale pair captures exactly the
values and renderings the spec exercises without modelling binary
floating point. -/
structure dec_number where
  mantissa : Int
  scale : Nat
deriving DecidableEq, Repr

/-- Render a `dec_number` as a decimal literal, e.g. `235 / 10 ^ 1`
renders as `23.5`. -/
def render_dec (d : dec_number) : String :=
  let digits := toString d.mantissa.natAbs
  let sign := if d.mantissa < 0 then "-" else ""
  if d.scale = 0 then
    sign ++ digits
  else
    let padded :=
      if digits.length ≤ d.scale then
        String.mk (List.replicate (d.scale + 1 - digits.length) '0') ++ digits
      else
        digits
    sign ++ padded.take (padded.length - d.scale) ++ "." ++
      padded.drop (padded.length - d.scale)

/-- The four column-value variants of the spec (§4.1 item 3): boolean,
64-bit signed integer, float (as a decimal number), and text.  Lean
strings are well-formed text by construction, so the external UTF-8
validator's verdict is always `pass` on representable inputs. -/
inductive column_value where
  | vbool (b : Bool)
  | vi64 (v : Int)
  | vf64 (d : dec_number)
  | vstr (s : String)
deriving DecidableEq, Repr

/-- Modelled from the spec: text column values are double-quoted with `"`
and `\` escaped by backslash-prefixing (§6). -/
def escape_text (s : String) : String :=
  String.mk (s.data.foldr
    (fun c acc => if c = '"' || c = '\\' then '\\' :: c :: acc else c :: acc)
    [])

/-- Modelled from the spec: the per-type column encoding of §6 — boolean
as bare `t`/`f`, integer as a decimal literal with trailing `i`, float as
a bare decimal literal, text double-quoted with escaping. -/
def encode_column_value : column_value → String
  | .vbool b => if b then "t" else "f"
  | .vi64 v => toString v ++ "i"
  | .vf64 d => render_dec d
  | .vstr s => "\"" ++ escape_text s ++ "\""

/-- Modelled from the spec: the state of the underlying C `line_sender`
object (§3 data model) — the builder-state tag, whether a typed column
has already been written in the current record (symbols must precede
columns), the record buffer's bytes, the sticky `must_close` flag, and an
identifier for the exclusively owned Transport. -/
structure core_state where
  bstate : builder_state
  has_columns : Bool
  buffer : String
  must_close_flag : Bool
  transport : Nat
deriving DecidableEq, Repr

/-- Modelled from the spec: the freshly connected sender starts a new
record stream with an empty buffer and the fatal flag clear. -/
def init_core (tid : Nat) : core_state :=
  ⟨.awaiting_table, false, "", false, tid⟩

/-- Modelled from the spec: `line_sender_table` (§4.1 item 1).  Fails
with `invalid_api_call` when the fatal flag is set (§7: continued use
after a fatal error is itself an invalid API call) or when not in
`AwaitingTable`; fails with `invalid_identifier` on an illegal name;
otherwise appends the table name and moves to
`AwaitingFieldsOrTimestamp`.  Errors leave the state unchanged. -/
def core_table (st : core_state) (name : String) :
    Except line_sender_error_code core_state :=
  if st.must_close_flag then .error .invalid_api_call
  else if st.bstate ≠ .awaiting_table then .error .invalid_api_call
  else if ¬ is_legal_ident name then .error .invalid_identifier
  else .ok { st with
    bstate := .awaiting_fields
    has_columns := false
    buffer := st.buffer ++ name }

/-- Modelled from the spec: `line_sender_symbol` (§4.1 item 2).  Legal
only in `AwaitingFieldsOrTimestamp` and only before any typed column of
the current record; appends `,name=value`. -/
def core_symbol (st : core_state) (name value : String) :
    Except line_sender_error_code core_state :=
  if st.must_close_flag then .error .invalid_api_call
  else if st.bstate ≠ .awaiting_fields then .error .invalid_api_call
  else if st.has_columns then .error .invalid_api_call
  else if ¬ is_legal_ident name then .error .invalid_identifier
  else .ok { st with buffer := st.buffer ++ "," ++ name ++ "=" ++ value }

/-- Modelled from the spec: the `line_sender_column_*` family (§4.1 item
3).  Legal only in `AwaitingFieldsOrTimestamp`; the first column of a
record is preceded by a space (separating the columns section from the
symbols section, §6), subsequent ones by a comma. -/
def core_column (st : core_state) (name : String) (v : column_value) :
    Except line_sender_error_code core_state :=
  if st.must_close_flag then .error .invalid_api_call
  else if st.bstate ≠ .awaiting_fields then .error .invalid_api_call
  else if ¬ is_legal_ident name then .error .invalid_identifier
  else .ok { st with
    has_columns := true
    buffer := st.buffer ++ (if st.has_columns then "," else " ") ++
      name ++ "=" ++ encode_column_value v }

/-- Modelled from the spec: `line_sender_at` (§4.1 item 4).  Legal only
in `AwaitingFieldsOrTimestamp`; appends a space, the decimal
epoch-nanosecond timestamp and the `\n` terminator, and returns to
`AwaitingTable`. -/
def core_at (st : core_state) (timestamp_epoch_nanos : Int) :
    Except line_sender_error_code core_state :=
  if st.must_close_flag then .error .invalid_api_call
  else if st.bstate ≠ .awaiting_fields then .error .invalid_api_call
  else .ok { st with
    bstate := .awaiting_table
    has_columns := false
    buffer := st.buffer ++ " " ++ toString timestamp_epoch_nanos ++ "\n" }

/-- Modelled from the spec: `line_sender_at_now` (§4.1 item 4, §8): the
record omits the explicit timestamp and terminates with the newline
immediately after the last field. -/
def core_at_now (st : core_state) :
    Except line_sender_error_code core_state :=
  if st.must_close_flag then .error .invalid_api_call
  else if st.bstate ≠ .awaiting_fields then .error .invalid_api_call
  else .ok { st with
    bstate := .awaiting_table
    has_columns := false
    buffer := st.buffer ++ "\n" }

/-- Modelled from the spec: `line_sender_flush` (§4.2).  `write_ok`
stands for the external Transport's write verdict.  With the fatal flag
set, flush fails with `socket_error` without touching the Transport (no
bytes handed over, state unchanged).  On transport failure it sets
`must_close`, raises `socket_error` and leaves the buffer unchanged; on
success it hands the buffer's bytes to the Transport and clears the
buffer.  Returns the post-state and either the bytes written or the
error. -/
def core_flush (st : core_state) (write_ok : Bool) :
    core_state × Except line_sender_error_code String :=
  if st.must_close_flag then
    (st, .error .socket_error)
  else if write_ok then
    ({ st with buffer := "" }, .ok st.buffer)
  else
    ({ st with must_close_flag := true }, .error .socket_error)

/-- Modelled from the spec: `line_sender_pending_size` returns the
current byte length of the buffer (§4.2). -/
def core_pending_size (st : core_state) : Nat :=
  st.buffer.utf8ByteSize

/-- The C++ wrapper object: a nullable handle to the underlying C
`line_sender` (`::line_sender* _impl`, header line 291);
`impl = none` models the null handle of a closed or moved-from
sender. -/
structure line_sender where
  impl : Option core_state
deriving DecidableEq, Repr

/-- Outcome of a wrapper call: the C++ method returns normally, throws a
`line_sender_error`, or passes a null `_impl` straight into the C
function (header methods `table`…`flush` perform no null check), which is
outside any defined behaviour and is recorded as `null_deref`. -/
inductive wrapper_result (α : Type) where
  | ok (v : α)
  | thrown (e : line_sender_error_code)
  | null_deref
deriving DecidableEq, Repr

/-- Lift a core call made through `wrapped_call` (header lines 75–81):
a null handle is forwarded unchecked; a core failure becomes a thrown
`line_sender_error`; a core success returns the same sender object
(`return *this`, with its updated core state). -/
def ls_lift (s : line_sender)
    (f : core_state → Except line_sender_error_code core_state) :
    wrapper_result line_sender :=
  match s.impl with
  | none => .null_deref
  | some st =>
    match f st with
    | .error e => .thrown e
    | .ok st2 => .ok ⟨some st2⟩

/-- `line_sender::table` (header lines 158–166): forwards `_impl` to
`::line_sender_table` with no null check and returns `*this`. -/
def ls_table (s : line_sender) (name : String) : wrapper_result line_sender :=
  ls_lift s (fun st => core_table st name)

/-- `line_sender::symbol` (header lines 168–178). -/
def ls_symbol (s : line_sender) (name value : String) :
    wrapper_result line_sender :=
  ls_lift s (fun st => core_symbol st name value)

/-- The `line_sender::column` overloads (header lines 185–238): the four
non-deleted overloads forward to `::line_sender_column_bool` /
`_i64` / `_f64` / `_str`; the `const char*` and `const std::string&`
overloads delegate to the `string_view` one. -/
def ls_column (s : line_sender) (name : String) (v : column_value) :
    wrapper_result line_sender :=
  ls_lift s (fun st => core_column st name v)

/-- `line_sender::at` (header lines 240–246): returns `void`, so the
wrapper yields no sender value for chaining. -/
def ls_at (s : line_sender) (timestamp_epoch_nanos : Int) :
    line_sender × wrapper_result Unit :=
  match s.impl with
  | none => (s, .null_deref)
  | some st =>
    match core_at st timestamp_epoch_nanos with
    | .error e => (s, .thrown e)
    | .ok st2 => (⟨some st2⟩, .ok ())

/-- `line_sender::at_now` (header lines 248–253): returns `void`. -/
def ls_at_now (s : line_sender) : line_sender × wrapper_result Unit :=
  match s.impl with
  | none => (s, .null_deref)
  | some st =>
    match core_at_now st with
    | .error e => (s, .thrown e)
    | .ok st2 => (⟨some st2⟩, .ok ())

/-- `line_sender::flush` (header lines 262–267): forwards `_impl` with no
null check; returns the post-object and either the bytes handed to the
Transport or the outcome.  `write_ok` is the external Transport's write
verdict. -/
def ls_flush (s : line_sender) (write_ok : Bool) :
    line_sender × wrapper_result String :=
  match s.impl with
  | none => (s, .null_deref)
  | some st =>
    match core_flush st write_ok with
    | (st2, .error e) => (⟨some st2⟩, .thrown e)
    | (st2, .ok sent) => (⟨some st2⟩, .ok sent)

/-- `line_sender::pending_size` (header lines 255–260): null-checked,
returns 0 on a null handle, otherwise the C pending size. -/
def ls_pending_size (s : line_sender) : Nat :=
  match s.impl with
  | none => 0
  | some st => core_pending_size st

/-- `line_sender::must_close` (header lines 269–274): null-checked,
returns `false` on a null handle, otherwise the C sticky flag. -/
def ls_must_close (s : line_sender) : Bool :=
  match s.impl with
  | none => false
  | some st => st.must_close_flag

/-- `line_sender::close` (header lines 276–283): if the handle is
non-null, call `::line_sender_close` (releasing the Transport) and null
the handle; otherwise do nothing.  The boolean reports whether the
Transport was released by this call. -/
def ls_close (s : line_sender) : line_sender × Bool :=
  match s.impl with
  | none => (⟨none⟩, false)
  | some _ => (⟨none⟩, true)

/-- `line_sender::~line_sender` (header lines 285–288): the destructor
just calls `close()`. -/
def ls_destroy (s : line_sender) : line_sender × Bool :=
  ls_close s

/-- Move construction `line_sender(line_sender&&)` (header lines
137–142): the new object takes `other._impl`; `other` is left with a
null handle.  Returns `(constructed, other after the move)`. -/
def ls_move_construct (other : line_sender) : line_sender × line_sender :=
  (⟨other.impl⟩, ⟨none⟩)

/-- Move assignment `operator=(line_sender&&)` (header lines 144–153)
for distinct objects: the destination first closes its own handle, then
takes `other._impl`, and `other` is left null.  Returns
`((destination after, source after), whether the destination released a
Transport it previously owned)`.  Self-assignment is guarded in the
header (`this != &other`) and leaves the object unchanged. -/
def ls_move_assign (dst src : line_sender) :
    (line_sender × line_sender) × Bool :=
  ((⟨src.impl⟩, ⟨none⟩), dst.impl.isSome)

/-- Outcome of the external connect operation (§6): resolution and
socket establishment are distinct failure points of the Transport
collaborator. -/
inductive connect_outcome where
  | resolved_ok
  | resolve_failed
  | socket_failed
deriving DecidableEq, Repr

/-- Modelled from the spec: `::line_sender_connect` — resolves the target
and establishes the Transport; resolution failure and socket failure
yield the two distinct error kinds of §7. -/
def transport_connect (o : connect_outcome) (tid : Nat) :
    Except line_sender_error_code core_state :=
  match o with
  | .resolve_failed => .error .could_not_resolve_addr
  | .socket_failed => .error .socket_error
  | .resolved_ok => .ok (init_core tid)

/-- The `line_sender` constructor (header lines 91–105): calls
`::line_sender_connect`; if the returned handle is null it throws the
error built from the C error object, so no object exists afterwards —
captured by the `Except` result carrying no `line_sender` on the error
path. -/
def ls_construct (o : connect_outcome) (tid : Nat) :
    Except line_sender_error_code line_sender :=
  match transport_connect o tid with
  | .error e => .error e
  | .ok st => .ok ⟨some st⟩

/-- The Transport identifier a sender currently owns, if any. -/
def owner_transport (s : line_sender) : Option Nat :=
  s.impl.map core_state.transport

/-! ## Scenario used for the round-trip claim -/

/-- The sender as constructed for the round-trip scenario. -/
def c3_sender : line_sender := ⟨some (init_core 0)⟩

/-- The fluent call sequence of the round-trip scenario
(`table("weather").symbol("city","London").column("temp",23.5)
.column("ok",true).at(1619509246813000000)` followed by `flush()`),
threaded through the wrapper API; the float `23.5` is the decimal number
`235 / 10 ^ 1`. -/
def c3_run : line_sender × wrapper_result String :=
  match ls_table c3_sender "weather" with
  | .ok s1 =>
    match ls_symbol s1 "city" "London" with
    | .ok s2 =>
      match ls_column s2 "temp" (.vf64 ⟨235, 1⟩) with
      | .ok s3 =>
        match ls_column s3 "ok" (.vbool true) with
        | .ok s4 =>
          match ls_at s4 1619509246813000000 with
          | (s5, .ok ()) => ls_flush s5 true
          | (s5, _) => (s5, .null_deref)
        | _ => (c3_sender, .null_deref)
      | _ => (c3_sender, .null_deref)
    | _ => (c3_sender, .null_deref)
  | _ => (c3_sender, .null_deref)

/-! ## Helper lemmas shared between claims -/

/-- A successful `core_table` call keeps the owned Transport. -/
theorem core_table_transport_eq (st st2 : core_state) (n : String)
    (h : core_table st n = .ok st2) : st2.transport = st.transport := by
  unfold core_table at h
  split_ifs at h
  all_goals injection h with h
  all_goals subst h
  all_goals rfl

/-- A successful `core_symbol` call keeps the owned Transport. -/
theorem core_symbol_transport_eq (st st2 : core_state) (n v : String)
    (h : core_symbol st n v = .ok st2) : st2.transport = st.transport := by
  unfold core_symbol at h
  split_ifs at h
  all_goals injection h with h
  all_goals subst h
  all_goals rfl

/-- A successful `core_column` call keeps the owned Transport. -/
theorem core_column_transport_eq (st st2 : core_state) (n : String)
    (v : column_value) (h : core_column st n v = .ok st2) :
    st2.transport = st.transport := by
  unfold core_column at h
  split_ifs at h
  all_goals injection h with h
  all_goals subst h
  all_goals rfl

/-- A successful `core_column` call marks the record as having columns
and stays in `AwaitingFieldsOrTimestamp` with the fatal flag clear. -/
theorem core_column_ok_shape (st st2 : core_state) (n : String)
    (v : column_value) (h : core_column st n v = .ok st2) :
    st2.has_columns = true ∧ st2.bstate = .awaiting_fields ∧
      st2.must_close_flag = false := by
  unfold core_column at h
  split_ifs at h with h1 h2 h3
  all_goals injection h with h
  all_goals subst h
  all_goals exact ⟨rfl, not_not.mp h2, by simpa using h1⟩

/-- A successful `core_table` call moves to `AwaitingFieldsOrTimestamp`
with the fatal flag clear. -/
theorem core_table_ok_shape (st st2 : core_state) (n : String)
    (h : core_table st n = .ok st2) :
    st2.bstate = .awaiting_fields ∧ st2.must_close_flag = false := by
  unfold core_table at h
  split_ifs at h with h1 h2 h3
  all_goals injection h with h
  all_goals subst h
  all_goals exact ⟨rfl, by simpa using h1⟩

/-! ## Claims -/

/-- C1: once the sticky fatal flag is set (as any `socket_error` does),
every field-appending call (`table`, `symbol`, `column`, `at`, `at_now`)
and every `flush` call fails with an error — neither crashing nor
silently succeeding — without attempting Transport I/O (the flush result
is the same error and unchanged state regardless of the Transport's
would-be verdict, and no bytes are handed over), and `must_close()`
returns `true` throughout; a failing transport write is what sets the
flag. -/
theorem C1_sticky_fatal_flag (bs : builder_state) (hc : Bool)
    (buf : String) (tid : Nat) (tn sn sv cn : String) (cv : column_value)
    (ts : Int) (ok : Bool) :
    core_table ⟨bs, hc, buf, true, tid⟩ tn = .error .invalid_api_call ∧
    core_symbol ⟨bs, hc, buf, true, tid⟩ sn sv = .error .invalid_api_call ∧
    core_column ⟨bs, hc, buf, true, tid⟩ cn cv = .error .invalid_api_call ∧
    core_at ⟨bs, hc, buf, true, tid⟩ ts = .error .invalid_api_call ∧
    core_at_now ⟨bs, hc, buf, true, tid⟩ = .error .invalid_api_call ∧
    core_flush ⟨bs, hc, buf, true, tid⟩ ok =
      (⟨bs, hc, buf, true, tid⟩, .error .socket_error) ∧
    ls_must_close ⟨some ⟨bs, hc, buf, true, tid⟩⟩ = true ∧
    ls_table ⟨some ⟨bs, hc, buf, true, tid⟩⟩ tn = .thrown .invalid_api_call ∧
    ls_flush ⟨some ⟨bs, hc, buf, true, tid⟩⟩ ok =
      (⟨some ⟨bs, hc, buf, true, tid⟩⟩, .thrown .socket_error) ∧
    (core_flush ⟨bs, hc, buf, false, tid⟩ false).1.must_close_flag = true :=
  ⟨rfl, rfl, rfl, rfl, rfl, rfl, rfl, rfl, rfl, rfl⟩

/-- C2: within one record, `symbol` after any successful `column` fails
with `invalid_api_call`; a second `table` after a successful `table`
fails with `invalid_api_call`; and `at` / `at_now` before `table` has
been called (builder still in `AwaitingTable`) fail with
`invalid_api_call` — in each case the typed error is surfaced. -/
theorem C2_record_grammar (s1 s2 stc stt : core_state)
    (cn sn sv tn tn2 : String) (cv : column_value)
    (hc : Bool) (buf : String) (tid : Nat) (ts : Int) :
    (core_column s1 cn cv = .ok stc →
      core_symbol stc sn sv = .error .invalid_api_call) ∧
    (core_table s2 tn = .ok stt →
      core_table stt tn2 = .error .invalid_api_call) ∧
    core_at ⟨.awaiting_table, hc, buf, false, tid⟩ ts =
      .error .invalid_api_call ∧
    core_at_now ⟨.awaiting_table, hc, buf, false, tid⟩ =
      .error .invalid_api_call := by
  refine ⟨?_, ?_, rfl, rfl⟩
  · intro h
    obtain ⟨hcols, hbs, hflag⟩ := core_column_ok_shape s1 stc cn cv h
    unfold core_symbol
    rw [hflag, hbs, hcols]
    simp
  · intro h
    obtain ⟨hbs, hflag⟩ := core_table_ok_shape s2 stt tn h
    unfold core_table
    rw [hflag, hbs]
    simp

/-- Witness for C2 at concrete inputs: a record that has a column
rejects a following `symbol`; a started record rejects a second `table`;
a fresh builder rejects `at` and `at_now`. -/
theorem C2_record_grammar_witness :
    core_symbol ⟨.awaiting_fields, true, "t c=t", false, 0⟩ "s" "v" =
      .error .invalid_api_call ∧
    core_table ⟨.awaiting_fields, false, "t", false, 0⟩ "u" =
      .error .invalid_api_call ∧
    core_at ⟨.awaiting_table, false, "", false, 0⟩ 5 =
      .error .invalid_api_call ∧
    core_at_now ⟨.awaiting_table, false, "", false, 0⟩ =
      .error .invalid_api_call := by
  obtain ⟨h1, h2, h3, h4⟩ :=
    C2_record_grammar ⟨.awaiting_fields, false, "t", false, 0⟩
      ⟨.awaiting_table, false, "", false, 0⟩
      ⟨.awaiting_fields, true, "t c=t", false, 0⟩
      ⟨.awaiting_fields, false, "t", false, 0⟩
      "c" "s" "v" "t" "u" (.vbool true) false "" 0 5
  exact ⟨h1 (by rfl), h2 (by rfl), h3, h4⟩

/-- C3: for the call sequence `table("weather")`, `symbol("city",
"London")`, `column("temp",23.5)`, `column("ok",true)`,
`at(1619509246813000000)` followed by `flush()`, the bytes handed to the
Transport are exactly
`weather,city=London temp=23.5,ok=t 1619509246813000000\n`, and the
buffer is empty afterwards. -/
theorem C3_roundtrip_wire_bytes :
    c3_run.2 =
      .ok "weather,city=London temp=23.5,ok=t 1619509246813000000\n" ∧
    ls_pending_size c3_run.1 = 0 := by
  decide

/-- C4: `pending_size()` returns the byte length of the buffer for a
live sender and `0` for a closed sender (null internal handle); it is a
pure total function (no side effects, no error path). -/
theorem C4_pending_size_contract (st : core_state) :
    ls_pending_size ⟨some st⟩ = st.buffer.utf8ByteSize ∧
    ls_pending_size ⟨none⟩ = 0 :=
  ⟨rfl, rfl⟩

/-- C5: `close()` is idempotent and never fails: a second close on an
already-closed sender releases nothing and is a no-op; after a close the
visible buffer size is `0`; a live sender's close releases the
Transport; closing a moved-from sender is a safe no-op; and the
destructor performs exactly `close()`. -/
theorem C5_close_idempotent (s : line_sender) (st : core_state) :
    ls_close (ls_close s).1 = (⟨none⟩, false) ∧
    ls_pending_size (ls_close s).1 = 0 ∧
    ls_close ⟨some st⟩ = (⟨none⟩, true) ∧
    ls_close ⟨none⟩ = (⟨none⟩, false) ∧
    ls_close (ls_move_construct s).2 = (⟨none⟩, false) ∧
    ls_destroy s = ls_close s := by
  obtain ⟨impl⟩ := s
  cases impl <;> exact ⟨rfl, rfl, rfl, rfl, rfl, rfl⟩

/-- C6: moving a sender transfers the Transport handle to the
destination and leaves the source with a null handle (owning nothing),
and move-assignment first closes whatever Transport the destination
previously owned; hence after any move at most the destination holds the
handle.  (Copy construction and copy assignment are deleted in the
header, so no duplicating operation exists to model.) -/
theorem C6_move_ownership (s d : line_sender) :
    (ls_move_construct s).1.impl = s.impl ∧
    (ls_move_construct s).2.impl = none ∧
    owner_transport (ls_move_construct s).2 = none ∧
    (ls_move_assign d s).1.1.impl = s.impl ∧
    (ls_move_assign d s).1.2.impl = none ∧
    owner_transport (ls_move_assign d s).1.2 = none ∧
    (ls_move_assign d s).2 = d.impl.isSome :=
  ⟨rfl, rfl, rfl, rfl, rfl, rfl, rfl⟩

/-- C7: every successful field-appending call (`table`, `symbol`,
`column`) hands back the very sender it was invoked on — a live handle
owning the same Transport, supporting fluent chaining — while `at` and
`at_now` conclude the record returning only the unit outcome, never a
sender. -/
theorem C7_fluent_return_contract (s1 s2 s3 r1 r2 r3 : line_sender)
    (st st2 st3 st4 : core_state) (tn sn sv cn : String)
    (cv : column_value) (ts : Int) :
    (ls_table s1 tn = .ok r1 →
      owner_transport r1 = owner_transport s1 ∧ r1.impl.isSome = true) ∧
    (ls_symbol s2 sn sv = .ok r2 →
      owner_transport r2 = owner_transport s2 ∧ r2.impl.isSome = true) ∧
    (ls_column s3 cn cv = .ok r3 →
      owner_transport r3 = owner_transport s3 ∧ r3.impl.isSome = true) ∧
    (core_at st ts = .ok st2 → ls_at ⟨some st⟩ ts = (⟨some st2⟩, .ok ())) ∧
    (core_at_now st3 = .ok st4 → ls_at_now ⟨some st3⟩ = (⟨some st4⟩, .ok ())) := by
  refine ⟨?_, ?_, ?_, ?_, ?_⟩
  · intro h
    unfold ls_table ls_lift at h
    obtain ⟨i1⟩ := s1
    cases i1 with
    | none => cases h
    | some stl =>
      simp only at h
      cases hcall : core_table stl tn with
      | error e => rw [hcall] at h; cases h
      | ok stl2 =>
        rw [hcall] at h
        injection h with h
        subst h
        exact ⟨by simp [owner_transport,
          core_table_transport_eq stl stl2 tn hcall], rfl⟩
  · intro h
    unfold ls_symbol ls_lift at h
    obtain ⟨i2⟩ := s2
    cases i2 with
    | none => cases h
    | some stl =>
      simp only at h
      cases hcall : core_symbol stl sn sv with
      | error e => rw [hcall] at h; cases h
      | ok stl2 =>
        rw [hcall] at h
        injection h with h
        subst h
        exact ⟨by simp [owner_transport,
          core_symbol_transport_eq stl stl2 sn sv hcall], rfl⟩
  · intro h
    unfold ls_column ls_lift at h
    obtain ⟨i3⟩ := s3
    cases i3 with
    | none => cases h
    | some stl =>
      simp only at h
      cases hcall : core_column stl cn cv with
      | error e => rw [hcall] at h; cases h
      | ok stl2 =>
        rw [hcall] at h
        injection h with h
        subst h
        exact ⟨by simp [owner_transport,
          core_column_transport_eq stl stl2 cn cv hcall], rfl⟩
  · intro h
    unfold ls_at
    simp [h]
  · intro h
    unfold ls_at_now
    simp [h]

/-- Witness for C7 at concrete inputs: a fresh sender on Transport 3,
after a successful `table`, is handed back owning the same Transport;
`at_now` on a started record returns the unit outcome with the
terminated record in the buffer. -/
theorem C7_fluent_return_contract_witness :
    (owner_transport ⟨some ⟨.awaiting_fields, false, "tbl", false, 3⟩⟩ =
      owner_transport ⟨some (init_core 3)⟩ ∧
      (⟨some ⟨.awaiting_fields, false, "tbl", false, 3⟩⟩ :
        line_sender).impl.isSome = true) ∧
    ls_at_now ⟨some ⟨.awaiting_fields, false, "tbl", false, 3⟩⟩ =
      (⟨some ⟨.awaiting_table, false, "tbl\n", false, 3⟩⟩, .ok ()) := by
  obtain ⟨h1, h2, h3, h4, h5⟩ :=
    C7_fluent_return_contract ⟨some (init_core 3)⟩ ⟨none⟩ ⟨none⟩
      ⟨some ⟨.awaiting_fields, false, "tbl", false, 3⟩⟩ ⟨none⟩ ⟨none⟩
      (init_core 9) (init_core 9)
      ⟨.awaiting_fields, false, "tbl", false, 3⟩
      ⟨.awaiting_table, false, "tbl\n", false, 3⟩
      "tbl" "s" "v" "c" (.vbool true) 5
  exact ⟨h1 (by rfl), h5 (by rfl)⟩

/-- C8: a failed connection setup yields no sender object (the
constructor propagates the typed error and the success value carries the
only constructed sender); address-resolution failure raises
`could_not_resolve_addr`, a kind distinct from the `socket_error` raised
when socket establishment fails. -/
theorem C8_construction_failure (tid : Nat) :
    ls_construct .resolve_failed tid = .error .could_not_resolve_addr ∧
    ls_construct .socket_failed tid = .error .socket_error ∧
    line_sender_error_code.could_not_resolve_addr ≠
      line_sender_error_code.socket_error ∧
    ls_construct .resolved_ok tid = .ok ⟨some (init_core tid)⟩ :=
  ⟨rfl, rfl, by decide, rfl⟩

/-- C9: `must_close()` on a sender whose internal handle is null (closed
or moved-from) returns `false`, even when the sticky flag was `true`
just before disposal: the latch does not survive the handle. -/
theorem C9_must_close_after_disposal (bs : builder_state) (hc : Bool)
    (buf : String) (tid : Nat) :
    ls_must_close ⟨none⟩ = false ∧
    ls_must_close (ls_close ⟨some ⟨bs, hc, buf, true, tid⟩⟩).1 = false ∧
    ls_must_close (ls_move_construct ⟨some ⟨bs, hc, buf, true, tid⟩⟩).2 =
      false :=
  ⟨rfl, rfl, rfl⟩

/-- C10: the wrapper's null-handle guarding is asymmetric: on a null
internal handle, `pending_size`, `must_close` and `close` return the
safe defaults (`0`, `false`, no-op releasing nothing), while `table`,
`symbol`, `column`, `at`, `at_now` and `flush` forward the null handle
straight into the underlying C call. -/
theorem C10_null_guard_asymmetry (tn sn sv cn : String)
    (cv : column_value) (ts : Int) (ok : Bool) :
    ls_pending_size ⟨none⟩ = 0 ∧
    ls_must_close ⟨none⟩ = false ∧
    ls_close ⟨none⟩ = (⟨none⟩, false) ∧
    ls_table ⟨none⟩ tn = .null_deref ∧
    ls_symbol ⟨none⟩ sn sv = .null_deref ∧
    ls_column ⟨none⟩ cn cv = .null_deref ∧
    (ls_at ⟨none⟩ ts).2 = .null_deref ∧
    (ls_at_now ⟨none⟩).2 = .null_deref ∧
    (ls_flush ⟨none⟩ ok).2 = .null_deref :=
  ⟨rfl, rfl, rfl, rfl, rfl, rfl, rfl, rfl, rfl⟩
